import Mathlib

/-!
Verification of the sensor-classification backend (`backend.py`).

The backend is a FastAPI service with one piece of mutable global state,
the dictionary `training_status = {"status": None}`, mutated only by the
background thread spawned by the `/api/train-model` endpoint.  We embed
the service as a labelled transition system over that global state, with
the read-only endpoints as pure functions of the state, and the random
sources (`random.uniform`, `random.random`, `random.choice`) as explicit
input streams.  Floating-point values are modelled as rationals; none of
the verified properties depends on float rounding.
-/

namespace SensorBackend

/-- Global mutable state of the service.

`status` is the value of `training_status["status"]` (`none` models
Python `None`, otherwise the stored string).  The training thread body
`train_model_thread` performs two separate writes (`"training"`, then
after `time.sleep(5)` the write `"trained"`), so a spawned thread passes
through three phases: not yet scheduled, between the two writes, done.
`spawned` counts threads that `train_model` has started but that have not
yet executed their first statement; `running` counts threads that have
set the status to `"training"` but not yet reached the final write. -/
structure SysState where
  status : Option String
  spawned : Nat
  running : Nat
deriving DecidableEq

/-- Initial state: `training_status = {"status": None}`, no threads. -/
def initState : SysState := { status := none, spawned := 0, running := 0 }

/-- Endpoint `POST /api/train-model` (`train_model` in `backend.py`):
if the stored status is `"training"` it returns `"already_training"` and
changes nothing; otherwise it starts a `train_model_thread` thread and
returns `"training_started"`.  The endpoint itself writes nothing to
`training_status`; the spawned thread does. -/
def train_model (s : SysState) : String × SysState :=
  if s.status = some "training" then ("already_training", s)
  else ("training_started", { s with spawned := s.spawned + 1 })

/-- First statement of `train_model_thread`: the write
`training_status["status"] = "training"`, executed by a spawned thread. -/
def thread_begin (s : SysState) : SysState :=
  { s with spawned := s.spawned - 1, running := s.running + 1,
           status := some "training" }

/-- Final statement of `train_model_thread` (after the 5-second sleep):
the write `training_status["status"] = "trained"`. -/
def thread_finish (s : SysState) : SysState :=
  { s with running := s.running - 1, status := some "trained" }

/-- One element of the JSON array returned by `GET /api/training-status`:
`{"status": training_status["status"], "accuracy": None}`. -/
structure StatusReport where
  status : Option String
  accuracy : Option ℚ
deriving DecidableEq

/-- Endpoint `GET /api/training-status` (`get_training_status`): returns
the singleton list `[{"status": ..., "accuracy": None}]`. -/
def get_training_status (s : SysState) : List StatusReport :=
  [{ status := s.status, accuracy := none }]

/-- Response of `GET /api/model-info`. -/
structure ModelInfoResponse where
  trained : Bool
  classes : List String
  sequence_length : Nat
deriving DecidableEq

/-- Endpoint `GET /api/model-info` (`model_info`): returns the constant
`{"trained": False, "classes": [], "sequence_length": 128}`.  It reads no
global state; the state parameter records that it is an endpoint of the
stateful service. -/
def model_info (_s : SysState) : ModelInfoResponse :=
  { trained := false, classes := [], sequence_length := 128 }

/-- Request body of `POST /api/predict` (pydantic model `SensorData`). -/
structure SensorData where
  sensor_data : List (List ℚ)
deriving DecidableEq

/-- Response of `POST /api/predict`. -/
structure PredictResponse where
  predicted_activity : String
  confidence : ℚ
deriving DecidableEq

/-- Endpoint `POST /api/predict` (`predict`): returns the constant
`{"predicted_activity": "unknown", "confidence": 0.0}` for every request
body; the body is not inspected and there is no error path. -/
def predict (_data : SensorData) : PredictResponse :=
  { predicted_activity := "unknown", confidence := 0 }

/-- One generated sample of `generate_training_data`. -/
structure GenSample where
  acc_x : ℚ
  acc_y : ℚ
  acc_z : ℚ
  activity : String
deriving DecidableEq

/-- Response of `POST /api/generate-training-data`. -/
structure GenResponse where
  samples : Nat
  activities : List String
deriving DecidableEq

/-- Endpoint `POST /api/generate-training-data` (`generate_training_data`):
builds `samples` random records and returns `{"samples": len(data),
"activities": activities}`.  `uniform i` supplies the three
`random.uniform(-1,1)` draws of record `i`; `choice i` supplies the index
drawn by `random.choice(activities)` (reduced modulo the list length).
The function reads and writes no global state, matching the source. -/
def generate_training_data (uniform : Nat → ℚ × ℚ × ℚ) (choice : Nat → Nat)
    (samples : Nat) : GenResponse :=
  let activities : List String := ["walking", "running", "jumping"]
  let data : List GenSample := (List.range samples).map (fun i =>
    { acc_x := (uniform i).1, acc_y := (uniform i).2.1,
      acc_z := (uniform i).2.2,
      activity := activities.getD (choice i % activities.length) "" })
  { samples := data.length, activities := activities }

/-- Configuration message a streaming client may send
(`{"activity": ..., "duration": ...}` in the test client).  The handler
in `backend.py` never calls `receive`, so the configuration is ignored. -/
structure StreamConfig where
  activity : String
  duration_seconds : Nat
deriving DecidableEq

/-- One outbound per-tick message of the WebSocket stream.  The
`prediction` field is modelled as optional so that an absent/null
prediction is expressible; the source always fills it with
`random.choice(["walking","running","jumping"])`. -/
structure StreamMsg where
  acc_x : ℚ
  acc_y : ℚ
  acc_z : ℚ
  prediction : Option String
deriving DecidableEq

/-- Endpoint `WS /api/stream` (`websocket_endpoint`): the loop
`for i in range(5)` sends one message per tick `i` and then closes the
connection.  The result lists the emission events in the order they are
sent, each paired with the tick index `i` at which `ws.send_json` runs.
`rand i` supplies the three `random.random()` draws of tick `i`;
`choice i` the `random.choice` index.  The configuration is ignored,
matching the source, which never reads from the socket. -/
def websocket_endpoint (_cfg : StreamConfig) (rand : Nat → ℚ × ℚ × ℚ)
    (choice : Nat → Nat) : List (Nat × StreamMsg) :=
  (List.range 5).map (fun i =>
    (i, { acc_x := (rand i).1, acc_y := (rand i).2.1, acc_z := (rand i).2.2,
          prediction := some ((["walking", "running", "jumping"] : List String).getD
            (choice i % 3) "walking") }))

/-- Interleaving semantics: a step is one endpoint call or one write of a
background training thread.  `thread_begin` is enabled only for a thread
that was spawned and has not run yet; `thread_finish` only for a thread
between its two writes. -/
inductive Step : SysState → SysState → Prop
  | train (s t : SysState) (he : t = (train_model s).2) : Step s t
  | tbegin (s t : SysState) (hs : 0 < s.spawned) (he : t = thread_begin s) :
      Step s t
  | tfinish (s t : SysState) (hr : 0 < s.running) (he : t = thread_finish s) :
      Step s t

/-- States reachable from the initial state by interleaved steps. -/
inductive Reachable : SysState → Prop
  | init : Reachable initState
  | step {s t : SysState} (h : Reachable s) (hs : Step s t) : Reachable t

/-- The `train_model` endpoint never writes `training_status`. -/
theorem train_model_status (s : SysState) :
    ((train_model s).2).status = s.status := by
  unfold train_model
  split <;> rfl

/-- Invariant: the stored status is always `None`, `"training"` or
`"trained"`: the only writes in the source are the two in
`train_model_thread`. -/
theorem status_of_reachable {s : SysState} (h : Reachable s) :
    s.status = none ∨ s.status = some "training" ∨ s.status = some "trained" := by
  induction h with
  | init => exact Or.inl rfl
  | step h hs ih =>
    cases hs with
    | train he =>
      subst he
      rw [train_model_status]
      exact ih
    | tbegin hu he =>
      subst he
      exact Or.inr (Or.inl rfl)
    | tfinish hu he =>
      subst he
      exact Or.inr (Or.inr rfl)

/-- Two calls to `train_model` before either spawned thread is scheduled,
followed by both threads executing their first write: the reached state
has two threads inside the simulated training. -/
theorem reachable_two_running :
    Reachable { status := some "training", spawned := 0, running := 2 } := by
  have h1 : Reachable { status := none, spawned := 1, running := 0 } :=
    Reachable.init.step (Step.train _ _ rfl)
  have h2 : Reachable { status := none, spawned := 2, running := 0 } :=
    h1.step (Step.train _ _ rfl)
  have h3 : Reachable { status := some "training", spawned := 1, running := 1 } :=
    h2.step (Step.tbegin _ _ (by decide) rfl)
  exact h3.step (Step.tbegin _ _ (by decide) rfl)

/-- One full training run: call, thread start, thread completion. -/
theorem reachable_trained_state :
    Reachable { status := some "trained", spawned := 0, running := 0 } := by
  have h1 : Reachable { status := none, spawned := 1, running := 0 } :=
    Reachable.init.step (Step.train _ _ rfl)
  have h2 : Reachable { status := some "training", spawned := 0, running := 1 } :=
    h1.step (Step.tbegin _ _ (by decide) rfl)
  exact h2.step (Step.tfinish _ _ (by decide) rfl)

/-- Claim C1, counterexample: mutual exclusion fails.  The status flag is
written by the spawned thread, not by `train_model` itself, so two calls
arriving before the first thread's write both observe a status other than
`"training"` and both start runs.  The state with two threads
simultaneously inside the simulated training (`running = 2`) is
reachable, and the second call, made while a run was already in flight
(`spawned = 1`), returned `"training_started"` rather than the
`"already_training"` rejection. -/
theorem train_model_mutual_exclusion_cex :
    Reachable { status := some "training", spawned := 0, running := 2 } ∧
    (train_model { status := none, spawned := 1, running := 0 }).1
      = "training_started" :=
  ⟨reachable_two_running, rfl⟩

/-- Claim C1, amended: `train_model` rejects with `"already_training"`
and leaves all state unchanged exactly when the stored status already
reads `"training"`; before the spawned thread performs that write, a
further call is not rejected. -/
theorem train_model_rejects_when_training (s : SysState)
    (h : s.status = some "training") :
    train_model s = ("already_training", s) := by
  unfold train_model
  rw [h]
  simp

/-- Witness for the amended C1 theorem at a concrete busy state. -/
theorem train_model_rejects_when_training_witness :
    train_model { status := some "training", spawned := 0, running := 1 }
      = ("already_training",
         { status := some "training", spawned := 0, running := 1 }) :=
  train_model_rejects_when_training _ rfl

/-- Claim C2, counterexample: in the initial state the service holds no
samples at all (the stub has no sample store: `upload_csv` reports zero
samples and `generate_training_data` stores nothing), yet `train_model`
does not reject with any insufficient-data signal: it answers
`"training_started"` and spawns a run. -/
theorem train_model_no_insufficient_data_cex :
    train_model initState
      = ("training_started", { status := none, spawned := 1, running := 0 }) ∧
    ("training_started" : String) ≠ "insufficient_data" :=
  ⟨rfl, by decide⟩

/-- Claim C2, amended: `train_model` performs no data check whatsoever;
whenever the stored status is not `"training"` it accepts the request,
returns `"training_started"` and spawns a run (it does not crash), for
every state of the sample-free stub. -/
theorem train_model_accepts_without_data (s : SysState)
    (h : s.status ≠ some "training") :
    train_model s = ("training_started", { s with spawned := s.spawned + 1 }) := by
  unfold train_model
  simp [h]

/-- Witness for the amended C2 theorem at the empty initial state. -/
theorem train_model_accepts_without_data_witness :
    train_model initState
      = ("training_started", { status := none, spawned := 1, running := 0 }) :=
  train_model_accepts_without_data initState (by decide)

/-- Claim C3, counterexample: `"trained"` is the code's success status
(the spec surface value `succeeded`).  The state after one completed run
is reachable, and there `get_training_status` pairs the success status
with a null accuracy — the report is always
`[{"status": ..., "accuracy": None}]`. -/
theorem get_status_null_accuracy_cex :
    Reachable { status := some "trained", spawned := 0, running := 0 } ∧
    get_training_status { status := some "trained", spawned := 0, running := 0 }
      = [{ status := some "trained", accuracy := none }] :=
  ⟨reachable_trained_state, rfl⟩

/-- Claim C3, amended: in every reachable state the report's accuracy
field is null — also when the status is the success value `"trained"` —
and the status is never a failed value, so the claim's clause about
`Failed` holds vacuously while the clause about `Succeeded` fails. -/
theorem get_status_report_shape (s : SysState) (h : Reachable s)
    (r : StatusReport) (hr : r ∈ get_training_status s) :
    r.accuracy = none ∧ r.status ≠ some "failed" := by
  have hs := status_of_reachable h
  simp only [get_training_status, List.mem_singleton] at hr
  subst hr
  refine ⟨rfl, ?_⟩
  rcases hs with h1 | h1 | h1 <;> simp [h1]

/-- Witness for the amended C3 theorem at the initial state's report. -/
theorem get_status_report_shape_witness :
    ({ status := none, accuracy := none } : StatusReport).accuracy = none ∧
    ({ status := none, accuracy := none } : StatusReport).status
      ≠ some "failed" :=
  get_status_report_shape initState Reachable.init _ (List.mem_singleton.mpr rfl)

/-- Claim C4, counterexample: `predict` performs no length check.  A
window of length 1 (≠ 128, the `sequence_length` of `model_info`) is not
rejected: the endpoint returns the usual prediction response. -/
theorem predict_no_length_check_cex :
    ({ sensor_data := [[1, 2, 3]] } : SensorData).sensor_data.length ≠ 128 ∧
    predict { sensor_data := [[1, 2, 3]] }
      = { predicted_activity := "unknown", confidence := 0 } :=
  ⟨by decide, rfl⟩

/-- Claim C4, amended: `predict` accepts a window of any length; its body
never inspects the input and has no error path, so it always returns the
prediction `{"predicted_activity": "unknown", "confidence": 0.0}`. -/
theorem predict_accepts_any_length (data : SensorData) :
    predict data = { predicted_activity := "unknown", confidence := 0 } :=
  rfl

/-- Claim C5: on a window of the expected length (`sequence_length` of
`model_info`, i.e. 128) with no trained model (`model_info` reports
`trained = false`), `predict` returns exactly label `"unknown"` with
confidence 0.0 — never a guessed label or nonzero confidence. -/
theorem predict_untrained_unknown (s : SysState) (data : SensorData)
    (hlen : data.sensor_data.length = (model_info s).sequence_length)
    (hm : (model_info s).trained = false) :
    predict data = { predicted_activity := "unknown", confidence := 0 } :=
  rfl

/-- Witness for C5 at a concrete window of length 128. -/
theorem predict_untrained_unknown_witness :
    predict { sensor_data := List.replicate 128 [0, 0, 0] }
      = { predicted_activity := "unknown", confidence := 0 } :=
  predict_untrained_unknown initState
    { sensor_data := List.replicate 128 [0, 0, 0] } (by simp [model_info]) rfl

/-- Claim C6: a streaming session whose configuration asks for
`duration_seconds = 5` (with the handler's fixed 1-second tick interval)
emits between 5 and 6 messages before the server closes the connection —
the loop sends exactly 5 — and the ticks of the emitted messages are
strictly increasing: none dropped, none reordered. -/
theorem websocket_five_messages_ordered (cfg : StreamConfig)
    (rand : Nat → ℚ × ℚ × ℚ) (choice : Nat → Nat)
    (hd : cfg.duration_seconds = 5) :
    5 ≤ (websocket_endpoint cfg rand choice).length ∧
    (websocket_endpoint cfg rand choice).length ≤ 6 ∧
    ((websocket_endpoint cfg rand choice).map Prod.fst).Chain' (· < ·) := by
  have hmap : (websocket_endpoint cfg rand choice).map Prod.fst = List.range 5 := by
    simp only [websocket_endpoint, List.map_map]
    rfl
  refine ⟨by simp [websocket_endpoint], by simp [websocket_endpoint], ?_⟩
  rw [hmap]
  exact (List.chain'_range_succ (· < ·) 4).mpr (fun m _ => Nat.lt_succ_self m)

/-- Witness for C6 at a concrete configuration and random streams. -/
theorem websocket_five_messages_ordered_witness :
    5 ≤ (websocket_endpoint { activity := "walking", duration_seconds := 5 }
          (fun _ => (0, 0, 0)) (fun _ => 0)).length ∧
    (websocket_endpoint { activity := "walking", duration_seconds := 5 }
          (fun _ => (0, 0, 0)) (fun _ => 0)).length ≤ 6 ∧
    ((websocket_endpoint { activity := "walking", duration_seconds := 5 }
          (fun _ => (0, 0, 0)) (fun _ => 0)).map Prod.fst).Chain' (· < ·) :=
  websocket_five_messages_ordered _ _ _ rfl

/-- Claim C7, counterexample: no model is ever trained (`model_info`
always reports `trained = false`), yet a streaming tick carries a guessed
prediction: with the choice stream picking index 0, the first emitted
message has `prediction = some "walking"`, not an absent/null field. -/
theorem websocket_guessed_prediction_cex :
    (model_info initState).trained = false ∧
    ∃ p ∈ websocket_endpoint { activity := "walking", duration_seconds := 5 }
        (fun _ => (0, 0, 0)) (fun _ => 0),
      p.2.prediction = some "walking" := by
  refine ⟨rfl, ⟨(0, { acc_x := 0, acc_y := 0, acc_z := 0,
                      prediction := some "walking" }), ?_, rfl⟩⟩
  simp [websocket_endpoint]

/-- Claim C7, amended: every per-tick message of a streaming session
carries a present prediction field holding one of the three guessed
labels drawn by `random.choice`, even though no model is ever trained;
the field is never absent/null. -/
theorem websocket_prediction_always_guessed (cfg : StreamConfig)
    (rand : Nat → ℚ × ℚ × ℚ) (choice : Nat → Nat) (p : Nat × StreamMsg)
    (hp : p ∈ websocket_endpoint cfg rand choice) :
    p.2.prediction ≠ none ∧
    ∃ l, p.2.prediction = some l ∧
      l ∈ (["walking", "running", "jumping"] : List String) := by
  obtain ⟨i, hi, hpe⟩ := List.mem_map.mp hp
  subst hpe
  have h3 : choice i % 3 = 0 ∨ choice i % 3 = 1 ∨ choice i % 3 = 2 := by omega
  rcases h3 with h | h | h <;> simp [h, List.getD]

/-- Witness for the amended C7 theorem at the stream's first message. -/
theorem websocket_prediction_always_guessed_witness :
    ((0, { acc_x := 0, acc_y := 0, acc_z := 0,
           prediction := some "walking" }) : Nat × StreamMsg).2.prediction
      ≠ none ∧
    ∃ l, ((0, { acc_x := 0, acc_y := 0, acc_z := 0,
                prediction := some "walking" }) : Nat × StreamMsg).2.prediction
        = some l ∧
      l ∈ (["walking", "running", "jumping"] : List String) :=
  websocket_prediction_always_guessed
    { activity := "walking", duration_seconds := 5 }
    (fun _ => (0, 0, 0)) (fun _ => 0) _
    (by simp [websocket_endpoint])

/-- Claim C8, counterexample: the state after a completed (`"trained"`,
the code's success status) run is reachable, yet `model_info` still
reports `trained = false` with an empty class list — the handle is the
constant stub response, not updated by the successful run. -/
theorem model_info_after_success_cex :
    Reachable { status := some "trained", spawned := 0, running := 0 } ∧
    (model_info { status := some "trained", spawned := 0, running := 0 }).trained
      = false ∧
    (model_info { status := some "trained", spawned := 0, running := 0 }).classes
      = [] :=
  ⟨reachable_trained_state, rfl, rfl⟩

/-- Claim C8, amended: `model_info` is the constant
`{trained := false, classes := [], sequence_length := 128}` in every
state, so it is unchanged by every run — the clause about `Failed` runs
holds trivially (no run ever fails and nothing is ever replaced), while
after a succeeded run `trained` remains `false` and `classes` empty. -/
theorem model_info_constant (s t : SysState) :
    model_info s = { trained := false, classes := [], sequence_length := 128 } ∧
    model_info s = model_info t :=
  ⟨rfl, rfl⟩

/-- Claim C9: in every reachable state the global training status is one
of `None`, `"training"`, `"trained"`; it is never a failed value, and no
report of `get_training_status` ever shows a failed status (the report
record has no error field at all), so a training attempt can never be
observed as failed. -/
theorem training_status_three_values (s : SysState) (h : Reachable s) :
    (s.status = none ∨ s.status = some "training" ∨ s.status = some "trained") ∧
    s.status ≠ some "failed" ∧
    ∀ r ∈ get_training_status s, r.status ≠ some "failed" := by
  have hs := status_of_reachable h
  refine ⟨hs, ?_, ?_⟩
  · rcases hs with h1 | h1 | h1 <;> simp [h1]
  · intro r hr
    simp only [get_training_status, List.mem_singleton] at hr
    subst hr
    rcases hs with h1 | h1 | h1 <;> simp [h1]

/-- Witness for C9 at the initial state. -/
theorem training_status_three_values_witness :
    (initState.status = none ∨ initState.status = some "training" ∨
      initState.status = some "trained") ∧
    initState.status ≠ some "failed" ∧
    ∀ r ∈ get_training_status initState, r.status ≠ some "failed" :=
  training_status_three_values initState Reachable.init

/-- Claim C10: `generate_training_data` reports exactly `n` samples for
every requested count `n` and always the fixed activity list
`["walking", "running", "jumping"]`; the response does not depend on the
random draws, and the function touches no stored state (its embedding
takes no `SysState`, matching a body that reads and writes no global). -/
theorem generate_training_data_shape (uniform uniform' : Nat → ℚ × ℚ × ℚ)
    (choice choice' : Nat → Nat) (n : Nat) :
    (generate_training_data uniform choice n).samples = n ∧
    (generate_training_data uniform choice n).activities
      = ["walking", "running", "jumping"] ∧
    generate_training_data uniform choice n
      = generate_training_data uniform' choice' n := by
  refine ⟨by simp [generate_training_data], rfl, ?_⟩
  simp [generate_training_data]

end SensorBackend
